import Mathlib

/-!
# Verification of the `Syevd` validation-and-dispatch layer

Shallow embedding of `src/linalg/lapack/syevd.go` from the `cvx` repository.
`Syevd` validates a possibly-offset view into a dense column-major matrix
buffer and, if all checks pass, dispatches a real symmetric matrix to an
external eigensolver kernel (`dsyevd`); the kernel itself is external to the
repository and is modelled as an explicit functional parameter.

Element values are modelled as rationals (`ℚ`): the validation/addressing
layer under verification never inspects element values, and the kernel
contract only needs a linear order.
-/

namespace CvxSyevd

/-- The runtime representation of the `matrix.Matrix` interface argument:
the Go type switch in `Syevd` distinguishes `*matrix.FloatMatrix`,
`*matrix.ComplexMatrix`, and (implicitly, by having no default case)
any other implementation of the interface. -/
inductive MatrixKind where
  | float
  | complex
  | other
deriving DecidableEq, Repr

/-- A dense matrix view as used by `Syevd`: row and column counts, and the
flat backing store returned by `FloatArray()`.  `NumElements()` is the
length of the backing store. -/
structure Mat where
  kind : MatrixKind
  rows : Nat
  cols : Nat
  store : List ℚ
deriving DecidableEq, Repr

/-- `A.NumElements()`: total element count of the backing store. -/
def Mat.numElements (A : Mat) : Nat := A.store.length

/-- The index options read by `linalg.GetIndexOpts`: `ind.N`, `ind.LDa`,
`ind.OffsetA`, `ind.OffsetW` (Go `int`s, so modelled as `Int`).
A negative `n` and a zero `lda` are the "unset" sentinels. -/
structure IndexOpts where
  n : Int
  lda : Int
  offsetA : Int
  offsetW : Int
deriving DecidableEq, Repr

/-- The distinct error values `Syevd` can return; each constructor
corresponds to one `errors.New` call site in the source, with the
source's error string recorded here:
* `notSquare`  — `"A not square"`
* `ldaTooSmall` — `"lda"`
* `offsetANeg` — `"offsetA"`
* `sizeATooSmall` — `"sizeA"`
* `offsetWNeg` — `"offsetW"`
* `sizeWTooSmall` — `"sizeW"`
* `notComplexFunc` — `"Not a complex function"`
* `callError` — `"Syevd call error"` -/
inductive SyevdError where
  | notSquare
  | ldaTooSmall
  | offsetANeg
  | sizeATooSmall
  | offsetWNeg
  | sizeWTooSmall
  | notComplexFunc
  | callError
deriving DecidableEq, Repr

/-- The validation errors: every error produced before the type switch
(dispatch) is reached. -/
def SyevdError.isValidation : SyevdError → Bool
  | .notSquare => true
  | .ldaTooSmall => true
  | .offsetANeg => true
  | .sizeATooSmall => true
  | .offsetWNeg => true
  | .sizeWTooSmall => true
  | .notComplexFunc => false
  | .callError => false

/-- The errors the spec's taxonomy classifies as `RangeError`: a negative
offset, or a buffer too small for the computed access window. -/
def SyevdError.isRange : SyevdError → Bool
  | .offsetANeg => true
  | .sizeATooSmall => true
  | .offsetWNeg => true
  | .sizeWTooSmall => true
  | _ => false

/-- The external `dsyevd` kernel, modelled functionally: given the job and
triangle codes, the order `n`, the matrix window, the leading dimension and
the eigenvalue window, it returns the integer status together with the new
contents of the two windows (the Go kernel mutates the slices in place). -/
def KernelFn : Type :=
  Char → Char → Int → List ℚ → Int → List ℚ → Int × List ℚ × List ℚ

/-- The outcome of one `Syevd` call: the returned error (`none` = success),
the final contents of the two backing stores, and whether the external
kernel was invoked. -/
structure SyevdResult where
  err : Option SyevdError
  a : List ℚ
  w : List ℚ
  kernelCalled : Bool
deriving DecidableEq, Repr

/-- The effective order after defaulting: `if ind.N < 0 { ind.N = A.Rows() }`. -/
def effN (A : Mat) (ind : IndexOpts) : Int :=
  if ind.n < 0 then (A.rows : Int) else ind.n

/-- The effective leading dimension after defaulting:
`if ind.LDa == 0 { ind.LDa = max(1, A.Rows()) }`. -/
def effLda (A : Mat) (ind : IndexOpts) : Int :=
  if ind.lda = 0 then max 1 (A.rows : Int) else ind.lda

/-- The exact kernel invocation `Syevd` performs when it reaches the
`*matrix.FloatMatrix` case of the type switch:
`dsyevd(jobz, uplo, ind.N, Aa[ind.OffsetA:], ind.LDa, Wa[ind.OffsetW:])`,
with `ind.N` and `ind.LDa` already defaulted.  Go sub-slicing from an
offset is `List.drop`. -/
def kernelCall (dsyevd : KernelFn) (A W : Mat) (jobz uplo : Char)
    (ind : IndexOpts) : Int × List ℚ × List ℚ :=
  dsyevd jobz uplo (effN A ind) (A.store.drop ind.offsetA.toNat)
    (effLda A ind) (W.store.drop ind.offsetW.toNat)

/-- Shallow embedding of `Syevd` (src/linalg/lapack/syevd.go, lines 45-96).
`jobz` and `uplo` are the already-translated kernel option characters
(`linalg.ParamString(pars.Jobz)` / `(pars.Uplo)`); `dsyevd` is the external
kernel.  The control flow mirrors the source statement by statement, with
the in-place defaulting assignments to `ind.N` / `ind.LDa` expressed by
`effN` / `effLda`:

* `if ind.N < 0 { ind.N = A.Rows(); if ind.N != A.Cols() { return "A not square" } }`
* `if ind.N == 0 { return nil }`
* `if ind.LDa == 0 { ind.LDa = max(1, A.Rows()) }`
* `if ind.LDa < max(1, ind.N) { return "lda" }`
* `if ind.OffsetA < 0 { return "offsetA" }`
* `if sizeA < ind.OffsetA+(ind.N-1)*ind.LDa+ind.N { return "sizeA" }`
* `if ind.OffsetW < 0 { return "offsetW" }`
* `if sizeW < ind.OffsetW+ind.N { return "sizeW" }`
* type switch: `*matrix.FloatMatrix` calls the kernel (`kernelCall`);
  `*matrix.ComplexMatrix` returns `"Not a complex function"`; any other
  runtime type falls through with `info` still `0`;
* `if info != 0 { return "Syevd call error" }`; `return nil`.

Slicing `Aa[ind.OffsetA:]` shares the backing store, so the final store is
the untouched region `take offsetA` followed by the kernel's window output. -/
def Syevd (dsyevd : KernelFn) (A W : Mat) (jobz uplo : Char)
    (ind : IndexOpts) : SyevdResult :=
  if ind.n < 0 ∧ (A.rows : Int) ≠ (A.cols : Int) then
    ⟨some .notSquare, A.store, W.store, false⟩
  else if effN A ind = 0 then ⟨none, A.store, W.store, false⟩
  else if effLda A ind < max 1 (effN A ind) then
    ⟨some .ldaTooSmall, A.store, W.store, false⟩
  else if ind.offsetA < 0 then ⟨some .offsetANeg, A.store, W.store, false⟩
  else if (A.numElements : Int) <
      ind.offsetA + (effN A ind - 1) * effLda A ind + effN A ind then
    ⟨some .sizeATooSmall, A.store, W.store, false⟩
  else if ind.offsetW < 0 then ⟨some .offsetWNeg, A.store, W.store, false⟩
  else if (W.numElements : Int) < ind.offsetW + effN A ind then
    ⟨some .sizeWTooSmall, A.store, W.store, false⟩
  else
    match A.kind with
    | .float =>
      if (kernelCall dsyevd A W jobz uplo ind).1 ≠ 0 then
        ⟨some .callError,
         A.store.take ind.offsetA.toNat ++ (kernelCall dsyevd A W jobz uplo ind).2.1,
         W.store.take ind.offsetW.toNat ++ (kernelCall dsyevd A W jobz uplo ind).2.2,
         true⟩
      else
        ⟨none,
         A.store.take ind.offsetA.toNat ++ (kernelCall dsyevd A W jobz uplo ind).2.1,
         W.store.take ind.offsetW.toNat ++ (kernelCall dsyevd A W jobz uplo ind).2.2,
         true⟩
    | .complex => ⟨some .notComplexFunc, A.store, W.store, false⟩
    | .other => ⟨none, A.store, W.store, false⟩

/-- The kernel contract stated in the spec, restricted to what the ordering
claim needs: on status 0 the kernel has written a non-decreasing sequence
into the first `n` positions of the eigenvalue window. -/
def KernelOk (k : KernelFn) : Prop :=
  ∀ jobz uplo n Aw lda Ww,
    (k jobz uplo n Aw lda Ww).1 = 0 →
    ∀ i : Nat, (i : Int) + 1 < n →
      ((k jobz uplo n Aw lda Ww).2.2).getD i 0 ≤
        ((k jobz uplo n Aw lda Ww).2.2).getD (i + 1) 0

/-- A trivial concrete kernel used to instantiate theorems: it reports
success and zeroes the eigenvalue window. -/
def zeroKernel : KernelFn :=
  fun _ _ _ Aw _ Ww => (0, Aw, Ww.map fun _ => 0)

/-- A concrete kernel reporting a fixed status `s` and leaving both windows
unchanged. -/
def constKernel (s : Int) : KernelFn :=
  fun _ _ _ Aw _ Ww => (s, Aw, Ww)

theorem zeroKernel_ok : KernelOk zeroKernel := by
  intro jobz uplo n Aw lda Ww _ i _
  simp only [zeroKernel]
  rcases Nat.lt_or_ge i (Ww.map fun _ => (0 : ℚ)).length with h | h
  · rcases Nat.lt_or_ge (i + 1) (Ww.map fun _ => (0 : ℚ)).length with h' | h'
    · rw [List.getD_eq_getElem _ _ h, List.getD_eq_getElem _ _ h']
      simp
    · rw [List.getD_eq_getElem _ _ h, List.getD_eq_default _ _ h']
      simp
  · rw [List.getD_eq_default _ _ h,
      List.getD_eq_default _ _ (Nat.le_succ_of_le h)]

/-- C1: on every validation error (non-square, lda too small, negative
offsets, buffer too small), the kernel is never invoked and both backing
stores are returned unchanged (fail-fast atomicity). -/
theorem syevd_validation_atomic (dsyevd : KernelFn) (A W : Mat)
    (jobz uplo : Char) (ind : IndexOpts) (e : SyevdError)
    (he : (Syevd dsyevd A W jobz uplo ind).err = some e)
    (hv : e.isValidation = true) :
    (Syevd dsyevd A W jobz uplo ind).kernelCalled = false ∧
    (Syevd dsyevd A W jobz uplo ind).a = A.store ∧
    (Syevd dsyevd A W jobz uplo ind).w = W.store := by
  unfold Syevd at he ⊢
  split_ifs at he ⊢ <;> try exact ⟨rfl, rfl, rfl⟩
  all_goals rcases hk : A.kind with _ | _ | _ <;> simp only [hk] at he ⊢
  all_goals simp at he
  all_goals subst he
  all_goals simp [SyevdError.isValidation] at hv

/-- C1 witness: a 1×2 matrix with defaulted `n` hits the `notSquare`
validation error, and the theorem applies. -/
theorem syevd_validation_atomic_witness :
    (Syevd zeroKernel ⟨.float, 1, 2, [0, 0]⟩ ⟨.float, 1, 1, [0]⟩ 'N' 'L'
        ⟨-1, 0, 0, 0⟩).kernelCalled = false ∧
    (Syevd zeroKernel ⟨.float, 1, 2, [0, 0]⟩ ⟨.float, 1, 1, [0]⟩ 'N' 'L'
        ⟨-1, 0, 0, 0⟩).a = [0, 0] ∧
    (Syevd zeroKernel ⟨.float, 1, 2, [0, 0]⟩ ⟨.float, 1, 1, [0]⟩ 'N' 'L'
        ⟨-1, 0, 0, 0⟩).w = [0] :=
  syevd_validation_atomic zeroKernel ⟨.float, 1, 2, [0, 0]⟩
    ⟨.float, 1, 1, [0]⟩ 'N' 'L' ⟨-1, 0, 0, 0⟩ .notSquare (by decide) (by decide)

/-- C5 counterexample: the claim also covers `n` "defaulted from a matrix
with zero rows"; but a 0×3 matrix with defaulted `n` fails the squareness
check (`"A not square"`) instead of succeeding. -/
theorem syevd_n_zero_counterexample :
    (Syevd zeroKernel ⟨.float, 0, 3, []⟩ ⟨.float, 3, 1, [0, 0, 0]⟩ 'N' 'L'
        ⟨-1, 0, 0, 0⟩).err = some .notSquare := by decide

/-- C5 (amended): for `n` explicitly zero, or defaulted from a *square*
matrix with zero rows, `Syevd` succeeds, performs no kernel call, and
mutates neither backing store. -/
theorem syevd_n_zero_noop (dsyevd : KernelFn) (A W : Mat) (jobz uplo : Char)
    (ind : IndexOpts)
    (h : ind.n = 0 ∨ (ind.n < 0 ∧ A.rows = 0 ∧ A.cols = 0)) :
    Syevd dsyevd A W jobz uplo ind = ⟨none, A.store, W.store, false⟩ := by
  rcases h with h | ⟨h1, h2, h3⟩
  · simp [Syevd, effN, h]
  · simp [Syevd, effN, h1, h2, h3]

/-- C5 witness: explicit `n = 0` on a nonempty matrix succeeds and leaves
both stores intact. -/
theorem syevd_n_zero_noop_witness :
    Syevd zeroKernel ⟨.float, 1, 1, [4]⟩ ⟨.float, 1, 1, [7]⟩ 'N' 'L'
        ⟨0, 0, 0, 0⟩ = ⟨none, [4], [7], false⟩ :=
  syevd_n_zero_noop zeroKernel ⟨.float, 1, 1, [4]⟩ ⟨.float, 1, 1, [7]⟩
    'N' 'L' ⟨0, 0, 0, 0⟩ (Or.inl rfl)

/-- C6: with `n` left at the negative sentinel, a non-square matrix fails
with the `"A not square"` shape error, without kernel invocation or
mutation; and for a square matrix the defaulted order is the row count. -/
theorem syevd_default_n (dsyevd : KernelFn) (A W : Mat) (jobz uplo : Char)
    (ind : IndexOpts) (hn : ind.n < 0) :
    (A.rows ≠ A.cols →
      Syevd dsyevd A W jobz uplo ind =
        ⟨some .notSquare, A.store, W.store, false⟩) ∧
    (effN A ind = (A.rows : Int)) := by
  refine ⟨fun hne => ?_, ?_⟩
  · unfold Syevd
    rw [if_pos ⟨hn, by exact_mod_cast hne⟩]
  · unfold effN
    rw [if_pos hn]

/-- C6 witness: a 1×2 matrix with defaulted `n` fails with the shape
error; the defaulted order equals the row count. -/
theorem syevd_default_n_witness :
    (Syevd zeroKernel ⟨.float, 1, 2, [0, 0]⟩ ⟨.float, 1, 1, [0]⟩ 'N' 'L'
        ⟨-1, 0, 0, 0⟩ =
      ⟨some .notSquare, [0, 0], [0], false⟩) ∧
    effN ⟨.float, 1, 2, [0, 0]⟩ ⟨-1, 0, 0, 0⟩ = 1 :=
  ⟨(syevd_default_n zeroKernel ⟨.float, 1, 2, [0, 0]⟩ ⟨.float, 1, 1, [0]⟩
      'N' 'L' ⟨-1, 0, 0, 0⟩ (by decide)).1 (by decide),
   (syevd_default_n zeroKernel ⟨.float, 1, 2, [0, 0]⟩ ⟨.float, 1, 1, [0]⟩
      'N' 'L' ⟨-1, 0, 0, 0⟩ (by decide)).2⟩

/-- C10: when every validation check passes with a nonzero order but the
matrix's runtime representation is neither the float nor the complex
variant, the type switch matches nothing, `info` stays `0`, and the call
silently succeeds: no kernel invocation, no mutation of either store. -/
theorem syevd_unknown_type_noop (dsyevd : KernelFn) (A W : Mat)
    (jobz uplo : Char) (ind : IndexOpts)
    (hkind : A.kind = .other)
    (h1 : ¬(ind.n < 0 ∧ (A.rows : Int) ≠ (A.cols : Int)))
    (h2 : effN A ind ≠ 0)
    (h3 : ¬ effLda A ind < max 1 (effN A ind))
    (h4 : ¬ ind.offsetA < 0)
    (h5 : ¬ (A.numElements : Int) <
        ind.offsetA + (effN A ind - 1) * effLda A ind + effN A ind)
    (h6 : ¬ ind.offsetW < 0)
    (h7 : ¬ (W.numElements : Int) < ind.offsetW + effN A ind) :
    Syevd dsyevd A W jobz uplo ind = ⟨none, A.store, W.store, false⟩ := by
  unfold Syevd
  rw [if_neg h1, if_neg h2, if_neg h3, if_neg h4, if_neg h5, if_neg h6,
    if_neg h7, hkind]

/-- C10 witness: an unknown-representation 1×1 matrix passing all checks
returns success with both stores untouched and no kernel call. -/
theorem syevd_unknown_type_noop_witness :
    Syevd zeroKernel ⟨.other, 1, 1, [3]⟩ ⟨.float, 1, 1, [7]⟩ 'N' 'L'
        ⟨-1, 0, 0, 0⟩ = ⟨none, [3], [7], false⟩ :=
  syevd_unknown_type_noop zeroKernel ⟨.other, 1, 1, [3]⟩ ⟨.float, 1, 1, [7]⟩
    'N' 'L' ⟨-1, 0, 0, 0⟩ rfl (by decide) (by decide) (by decide) (by decide)
    (by decide) (by decide) (by decide)

/-- C3 counterexample: a 0×0 complex matrix with defaulted `n` takes the
`n == 0` early return and *succeeds*; the claim's "for every
complex-valued matrix input, Syevd fails with UnsupportedTypeError" is
therefore false as stated. -/
theorem syevd_complex_counterexample :
    (Syevd zeroKernel ⟨.complex, 0, 0, []⟩ ⟨.float, 0, 0, []⟩ 'N' 'L'
        ⟨-1, 0, 0, 0⟩).err = none := by decide

/-- C3 (amended): a complex-valued matrix input that reaches dispatch
(all validation checks pass, nonzero order) fails with the
`"Not a complex function"` error, without kernel invocation and without
mutating either store. -/
theorem syevd_complex_rejected (dsyevd : KernelFn) (A W : Mat)
    (jobz uplo : Char) (ind : IndexOpts)
    (hkind : A.kind = .complex)
    (h1 : ¬(ind.n < 0 ∧ (A.rows : Int) ≠ (A.cols : Int)))
    (h2 : effN A ind ≠ 0)
    (h3 : ¬ effLda A ind < max 1 (effN A ind))
    (h4 : ¬ ind.offsetA < 0)
    (h5 : ¬ (A.numElements : Int) <
        ind.offsetA + (effN A ind - 1) * effLda A ind + effN A ind)
    (h6 : ¬ ind.offsetW < 0)
    (h7 : ¬ (W.numElements : Int) < ind.offsetW + effN A ind) :
    Syevd dsyevd A W jobz uplo ind =
      ⟨some .notComplexFunc, A.store, W.store, false⟩ := by
  unfold Syevd
  rw [if_neg h1, if_neg h2, if_neg h3, if_neg h4, if_neg h5, if_neg h6,
    if_neg h7, hkind]

/-- C3 witness: a 1×1 complex matrix with all checks passing is rejected
with the complex-unsupported error and no mutation. -/
theorem syevd_complex_rejected_witness :
    Syevd zeroKernel ⟨.complex, 1, 1, [2]⟩ ⟨.float, 1, 1, [5]⟩ 'N' 'L'
        ⟨-1, 0, 0, 0⟩ = ⟨some .notComplexFunc, [2], [5], false⟩ :=
  syevd_complex_rejected zeroKernel ⟨.complex, 1, 1, [2]⟩ ⟨.float, 1, 1, [5]⟩
    'N' 'L' ⟨-1, 0, 0, 0⟩ rfl (by decide) (by decide) (by decide) (by decide)
    (by decide) (by decide) (by decide)

/-- C4 counterexample: with explicit `n = 0` and `offsetA = -1 < 0` the
call *succeeds* (the `n == 0` early return precedes the offset checks);
the claim's "for every call with offsetA < 0 or offsetW < 0, Syevd fails
with RangeError" is therefore false as stated. -/
theorem syevd_negative_offset_counterexample :
    (Syevd zeroKernel ⟨.float, 0, 0, []⟩ ⟨.float, 0, 0, []⟩ 'N' 'L'
        ⟨0, 0, -1, 0⟩).err = none := by decide

/-- C4 (amended): once the squareness check, the `n == 0` early return and
the leading-dimension check are passed, a negative `offsetA` or a negative
`offsetW` makes the call fail with one of the range errors (negative
offset or buffer too small), with no kernel call and no mutation. -/
theorem syevd_negative_offset_range (dsyevd : KernelFn) (A W : Mat)
    (jobz uplo : Char) (ind : IndexOpts)
    (h1 : ¬(ind.n < 0 ∧ (A.rows : Int) ≠ (A.cols : Int)))
    (h2 : effN A ind ≠ 0)
    (h3 : ¬ effLda A ind < max 1 (effN A ind))
    (hoff : ind.offsetA < 0 ∨ ind.offsetW < 0) :
    (∃ e, (Syevd dsyevd A W jobz uplo ind).err = some e ∧
      e.isRange = true) ∧
    (Syevd dsyevd A W jobz uplo ind).a = A.store ∧
    (Syevd dsyevd A W jobz uplo ind).w = W.store ∧
    (Syevd dsyevd A W jobz uplo ind).kernelCalled = false := by
  unfold Syevd
  rw [if_neg h1, if_neg h2, if_neg h3]
  rcases hA : decide (ind.offsetA < 0) with _ | _
  · have hA' : ¬ ind.offsetA < 0 := of_decide_eq_false hA
    have hW : ind.offsetW < 0 := hoff.resolve_left hA'
    rw [if_neg hA']
    rcases hS : decide ((A.numElements : Int) <
        ind.offsetA + (effN A ind - 1) * effLda A ind + effN A ind) with _ | _
    · rw [if_neg (of_decide_eq_false hS), if_pos hW]
      exact ⟨⟨.offsetWNeg, rfl, rfl⟩, rfl, rfl, rfl⟩
    · rw [if_pos (of_decide_eq_true hS)]
      exact ⟨⟨.sizeATooSmall, rfl, rfl⟩, rfl, rfl, rfl⟩
  · rw [if_pos (of_decide_eq_true hA)]
    exact ⟨⟨.offsetANeg, rfl, rfl⟩, rfl, rfl, rfl⟩

/-- C4 witness: a 1×1 matrix with `offsetA = -1` fails with a range error
and no mutation. -/
theorem syevd_negative_offset_range_witness :
    (∃ e, (Syevd zeroKernel ⟨.float, 1, 1, [0]⟩ ⟨.float, 1, 1, [0]⟩ 'N' 'L'
        ⟨1, 1, -1, 0⟩).err = some e ∧ e.isRange = true) ∧
    (Syevd zeroKernel ⟨.float, 1, 1, [0]⟩ ⟨.float, 1, 1, [0]⟩ 'N' 'L'
        ⟨1, 1, -1, 0⟩).a = [0] ∧
    (Syevd zeroKernel ⟨.float, 1, 1, [0]⟩ ⟨.float, 1, 1, [0]⟩ 'N' 'L'
        ⟨1, 1, -1, 0⟩).w = [0] ∧
    (Syevd zeroKernel ⟨.float, 1, 1, [0]⟩ ⟨.float, 1, 1, [0]⟩ 'N' 'L'
        ⟨1, 1, -1, 0⟩).kernelCalled = false :=
  syevd_negative_offset_range zeroKernel ⟨.float, 1, 1, [0]⟩
    ⟨.float, 1, 1, [0]⟩ 'N' 'L' ⟨1, 1, -1, 0⟩ (by decide) (by decide)
    (by decide) (Or.inl (by decide))

/-- C7 counterexample: with explicit `n = 0` and `leadingDimension = -5`
(not the zero sentinel, so kept), the resulting leading dimension `-5` is
below `max(1, n) = 1`, yet the call *succeeds* (the `n == 0` early return
precedes the check); the claim is therefore false as stated. -/
theorem syevd_lda_counterexample :
    (Syevd zeroKernel ⟨.float, 0, 0, []⟩ ⟨.float, 0, 0, []⟩ 'N' 'L'
        ⟨0, -5, 0, 0⟩).err = none := by decide

/-- C7 (amended): the zero-sentinel leading dimension defaults to
`max(1, rows)`; and once the squareness check and the `n == 0` early
return are passed, a resulting leading dimension below `max(1, n)` fails
with the `"lda"` layout error, with no kernel call and no mutation. -/
theorem syevd_lda_check (dsyevd : KernelFn) (A W : Mat)
    (jobz uplo : Char) (ind : IndexOpts)
    (h1 : ¬(ind.n < 0 ∧ (A.rows : Int) ≠ (A.cols : Int)))
    (h2 : effN A ind ≠ 0) :
    (ind.lda = 0 → effLda A ind = max 1 (A.rows : Int)) ∧
    (effLda A ind < max 1 (effN A ind) →
      Syevd dsyevd A W jobz uplo ind =
        ⟨some .ldaTooSmall, A.store, W.store, false⟩) := by
  refine ⟨fun hz => by rw [effLda, if_pos hz], fun h3 => ?_⟩
  unfold Syevd
  rw [if_neg h1, if_neg h2, if_pos h3]

/-- C7 witness: a 1×1 matrix with requested order 2 and sentinel
`leadingDimension = 0`: the default is `max(1, 1) = 1`, which is below
`max(1, 2)`, so the call fails with the layout error and no mutation. -/
theorem syevd_lda_check_witness :
    effLda ⟨.float, 1, 1, [0]⟩ ⟨2, 0, 0, 0⟩ = 1 ∧
    Syevd zeroKernel ⟨.float, 1, 1, [0]⟩ ⟨.float, 2, 1, [0, 0]⟩ 'N' 'L'
        ⟨2, 0, 0, 0⟩ = ⟨some .ldaTooSmall, [0], [0, 0], false⟩ :=
  ⟨(syevd_lda_check zeroKernel ⟨.float, 1, 1, [0]⟩ ⟨.float, 2, 1, [0, 0]⟩
      'N' 'L' ⟨2, 0, 0, 0⟩ (by decide) (by decide)).1 rfl,
   (syevd_lda_check zeroKernel ⟨.float, 1, 1, [0]⟩ ⟨.float, 2, 1, [0, 0]⟩
      'N' 'L' ⟨2, 0, 0, 0⟩ (by decide) (by decide)).2 (by decide)⟩

/-- C2: once execution reaches the matrix-buffer size check (order at
least one, squareness, leading-dimension and `offsetA` checks passed), a
total element count of exactly `offsetA + (n-1)*lda + n - 1` fails with
the `"sizeA"` range error, while exactly `offsetA + (n-1)*lda + n` passes
this check: the bound is inclusive. -/
theorem syevd_sizeA_boundary (dsyevd : KernelFn) (A W : Mat)
    (jobz uplo : Char) (ind : IndexOpts)
    (h1 : ¬(ind.n < 0 ∧ (A.rows : Int) ≠ (A.cols : Int)))
    (h2 : 1 ≤ effN A ind)
    (h3 : ¬ effLda A ind < max 1 (effN A ind))
    (h4 : ¬ ind.offsetA < 0) :
    ((A.numElements : Int) =
        ind.offsetA + (effN A ind - 1) * effLda A ind + effN A ind - 1 →
      (Syevd dsyevd A W jobz uplo ind).err = some .sizeATooSmall) ∧
    ((A.numElements : Int) =
        ind.offsetA + (effN A ind - 1) * effLda A ind + effN A ind →
      (Syevd dsyevd A W jobz uplo ind).err ≠ some .sizeATooSmall) := by
  have h2' : effN A ind ≠ 0 := by omega
  constructor
  · intro hsz
    unfold Syevd
    rw [if_neg h1, if_neg h2', if_neg h3, if_neg h4, if_pos (by omega)]
  · intro hsz
    unfold Syevd
    rw [if_neg h1, if_neg h2', if_neg h3, if_neg h4, if_neg (by omega)]
    split_ifs <;> try simp
    all_goals rcases hk : A.kind with _ | _ | _ <;> simp [hk]

/-- C2 witness: order 1, stride 1, zero offsets; a 1×1 matrix whose store
has 0 elements (one short of the bound 1) fails with the `"sizeA"` error,
while 1 element passes the size check. -/
theorem syevd_sizeA_boundary_witness :
    (Syevd zeroKernel ⟨.float, 1, 1, []⟩ ⟨.float, 1, 1, [0]⟩ 'N' 'L'
        ⟨1, 1, 0, 0⟩).err = some .sizeATooSmall ∧
    (Syevd zeroKernel ⟨.float, 1, 1, [0]⟩ ⟨.float, 1, 1, [0]⟩ 'N' 'L'
        ⟨1, 1, 0, 0⟩).err ≠ some .sizeATooSmall :=
  ⟨(syevd_sizeA_boundary zeroKernel ⟨.float, 1, 1, []⟩ ⟨.float, 1, 1, [0]⟩
      'N' 'L' ⟨1, 1, 0, 0⟩ (by decide) (by decide) (by decide) (by decide)).1
      (by decide),
   (syevd_sizeA_boundary zeroKernel ⟨.float, 1, 1, [0]⟩ ⟨.float, 1, 1, [0]⟩
      'N' 'L' ⟨1, 1, 0, 0⟩ (by decide) (by decide) (by decide) (by decide)).2
      (by decide)⟩

/-- C8 counterexample: the kernel statuses 1 and 2 produce the *same*
error value (`errors.New("Syevd call error")` is a fixed message), so the
returned error does not carry the raw status code as the claim states. -/
theorem syevd_kernel_status_counterexample :
    (Syevd (constKernel 1) ⟨.float, 1, 1, [0]⟩ ⟨.float, 1, 1, [0]⟩ 'N' 'L'
        ⟨1, 1, 0, 0⟩).err =
      (Syevd (constKernel 2) ⟨.float, 1, 1, [0]⟩ ⟨.float, 1, 1, [0]⟩ 'N' 'L'
        ⟨1, 1, 0, 0⟩).err ∧
    (Syevd (constKernel 1) ⟨.float, 1, 1, [0]⟩ ⟨.float, 1, 1, [0]⟩ 'N' 'L'
        ⟨1, 1, 0, 0⟩).err = some .callError := by decide

/-- C8 (amended): whenever the kernel is invoked, the call succeeds
exactly when the kernel status is `0`, and every nonzero status yields the
fixed `"Syevd call error"` (which does not include the status code). -/
theorem syevd_kernel_status (dsyevd : KernelFn) (A W : Mat)
    (jobz uplo : Char) (ind : IndexOpts)
    (hc : (Syevd dsyevd A W jobz uplo ind).kernelCalled = true) :
    ((Syevd dsyevd A W jobz uplo ind).err = none ↔
      (kernelCall dsyevd A W jobz uplo ind).1 = 0) ∧
    ((kernelCall dsyevd A W jobz uplo ind).1 ≠ 0 →
      (Syevd dsyevd A W jobz uplo ind).err = some .callError) := by
  unfold Syevd at hc ⊢
  split_ifs at hc ⊢ <;> try simp at hc
  all_goals rcases hk : A.kind with _ | _ | _ <;>
    simp only [hk] at hc ⊢ <;> simp_all

/-- C8 witness: a kernel reporting status 1 on a valid 1×1 problem makes
the call fail with the fixed call error, matching status-0-iff-success. -/
theorem syevd_kernel_status_witness :
    ((Syevd (constKernel 1) ⟨.float, 1, 1, [0]⟩ ⟨.float, 1, 1, [0]⟩ 'N' 'L'
        ⟨1, 1, 0, 0⟩).err = none ↔
      (kernelCall (constKernel 1) ⟨.float, 1, 1, [0]⟩ ⟨.float, 1, 1, [0]⟩
        'N' 'L' ⟨1, 1, 0, 0⟩).1 = 0) ∧
    ((kernelCall (constKernel 1) ⟨.float, 1, 1, [0]⟩ ⟨.float, 1, 1, [0]⟩
        'N' 'L' ⟨1, 1, 0, 0⟩).1 ≠ 0 →
      (Syevd (constKernel 1) ⟨.float, 1, 1, [0]⟩ ⟨.float, 1, 1, [0]⟩ 'N' 'L'
        ⟨1, 1, 0, 0⟩).err = some .callError) :=
  syevd_kernel_status (constKernel 1) ⟨.float, 1, 1, [0]⟩ ⟨.float, 1, 1, [0]⟩
    'N' 'L' ⟨1, 1, 0, 0⟩ (by decide)

/-- C9: for a real (float) matrix of order at least one, eigenvalues-only
mode (`jobz = 'N'`), and a successful call, the eigenvalue store holds a
non-decreasing sequence on positions `[offsetW, offsetW + n)`, assuming
the kernel meets its contract of writing ascending eigenvalues into the
first `n` positions of the eigenvalue window. -/
theorem syevd_eigenvalues_ascending (dsyevd : KernelFn) (A W : Mat)
    (uplo : Char) (ind : IndexOpts)
    (hker : KernelOk dsyevd)
    (hkind : A.kind = .float)
    (hn : 1 ≤ effN A ind)
    (hs : (Syevd dsyevd A W 'N' uplo ind).err = none) :
    ∀ i : Nat, (i : Int) + 1 < effN A ind →
      (Syevd dsyevd A W 'N' uplo ind).w.getD (ind.offsetW.toNat + i) 0 ≤
        (Syevd dsyevd A W 'N' uplo ind).w.getD (ind.offsetW.toNat + i + 1) 0 := by
  intro i hi
  unfold Syevd at hs ⊢
  unfold kernelCall at hs ⊢
  split_ifs at hs ⊢ with hsq hz hlda hoffA hszA hoffW hszW hinfo <;>
    try simp at hs
  · omega
  · rw [hkind] at hs
    simp at hs
  · rw [hkind] at hs ⊢
    simp only [Mat.numElements] at hszW
    have hW : ind.offsetW.toNat ≤ W.store.length := by omega
    have hlen : (W.store.take ind.offsetW.toNat).length = ind.offsetW.toNat := by
      rw [List.length_take]
      omega
    simp only []
    rw [List.getD_append_right _ _ _ _ (by omega),
      List.getD_append_right _ _ _ _ (by omega), hlen]
    have e1 : ind.offsetW.toNat + i - ind.offsetW.toNat = i := by omega
    have e2 : ind.offsetW.toNat + i + 1 - ind.offsetW.toNat = i + 1 := by omega
    rw [e1, e2]
    exact hker 'N' uplo (effN A ind) (A.store.drop ind.offsetA.toNat)
      (effLda A ind) (W.store.drop ind.offsetW.toNat)
      (not_not.mp hinfo) i hi

/-- C9 witness: the zero kernel on a 2×2 float matrix with defaulted
options succeeds, and the two eigenvalue slots are non-decreasing. -/
theorem syevd_eigenvalues_ascending_witness :
    (Syevd zeroKernel ⟨.float, 2, 2, [1, 2, 3, 4]⟩ ⟨.float, 2, 1, [5, 9]⟩
        'N' 'L' ⟨-1, 0, 0, 0⟩).w.getD 0 0 ≤
    (Syevd zeroKernel ⟨.float, 2, 2, [1, 2, 3, 4]⟩ ⟨.float, 2, 1, [5, 9]⟩
        'N' 'L' ⟨-1, 0, 0, 0⟩).w.getD 1 0 :=
  syevd_eigenvalues_ascending zeroKernel ⟨.float, 2, 2, [1, 2, 3, 4]⟩
    ⟨.float, 2, 1, [5, 9]⟩ 'L' ⟨-1, 0, 0, 0⟩ zeroKernel_ok rfl (by decide)
    (by decide) 0 (by decide)

end CvxSyevd
